import Mathlib

/-!
Shallow embedding of the Lchat translation subsystem:
`src/backend/utils/translate.js` (translateText, getPhraseFromCSV,
lookupCulturalIdiom, detectLanguage), the on-demand translation route
`src/backend/routes/translation.js` (router.post, including its CSV
cache-update block and error fallback), and the local engine wrapper
`src/unnamed/part_002` (loadModel, localTranslate, nllbLangMap).

JS strings are modelled by Lean `String` (`trim` / `toLower` stand in for
`String.prototype.trim` / `toLowerCase`); machine I/O is modelled by an
explicit file-system state `FS` whose read/append/write operations may
fail, mirroring thrown `fs` exceptions; the neural model invocation is an
abstract function parameter that may fail, matching a rejected promise.
Engine invocations are counted explicitly so that call-count properties
of the spec are statable.
-/

namespace Lchat

/-- `String.prototype.trim` on the character list: drop whitespace from
both ends.  (The whitespace set is the usual ASCII one; the data this
subsystem handles never contains the exotic JS whitespace characters.) -/
def trimChars (l : List Char) : List Char :=
  ((l.dropWhile Char.isWhitespace).reverse.dropWhile Char.isWhitespace).reverse

/-- `s.trim()`. -/
def jsTrim (s : String) : String := ⟨trimChars s.data⟩

/-- `s.toLowerCase()`: ASCII letters are lowered; the scripts this
subsystem handles (Devanagari, Tamil, Telugu) are caseless, so the
character-wise map is exact on them. -/
def jsLower (s : String) : String := ⟨s.data.map Char.toLower⟩

/-- `line.split(',')` on the character list. -/
def splitComma : List Char → List (List Char)
  | [] => [[]]
  | c :: rest =>
    if c == ',' then [] :: splitComma rest
    else
      match splitComma rest with
      | h :: t => (c :: h) :: t
      | [] => [[c]]

/-- `csv.split(/\r?\n/)` on the character list: a newline, optionally
preceded by a carriage return, separates lines. -/
def splitNewlineChars : List Char → List (List Char)
  | [] => [[]]
  | '\r' :: '\n' :: rest => [] :: splitNewlineChars rest
  | '\n' :: rest => [] :: splitNewlineChars rest
  | c :: rest =>
    match splitNewlineChars rest with
    | h :: t => (c :: h) :: t
    | [] => [[c]]

/-- One quoted CSV field as the source parses it: the JS code runs
`s.replace(/^"|"$/g, '')`, i.e. it removes one leading and one trailing
double quote (each only if present), which is what this function does. -/
def stripQuotesChars (l : List Char) : List Char :=
  let l1 := match l with
    | '"' :: rest => rest
    | other => other
  match l1.reverse with
  | '"' :: r => r.reverse
  | _ => l1

/-- `line.split(',').map(s => s.replace(/^"|"$/g, '').trim())` from
`getPhraseFromCSV` / `lookupCulturalIdiom` / the route's found-scan. -/
def parseFields (line : String) : List String :=
  (splitComma line.data).map (fun f => ⟨trimChars (stripQuotesChars f)⟩)

/-- The destructuring `const [src, tgt] = ...` plus the `src && tgt`
truthiness guard: returns the first two parsed fields when both are
non-empty. -/
def parseLine (line : String) : Option (String × String) :=
  match parseFields line with
  | src :: tgt :: _ => if src != "" && tgt != "" then some (src, tgt) else none
  | _ => none

/-- `csv.split(/\r?\n/)` at the `String` level. -/
def splitLines (s : String) : List String :=
  (splitNewlineChars s.data).map (fun l => ⟨l⟩)

/-- The lookup loop shared by `getPhraseFromCSV` and
`lookupCulturalIdiom`: scan lines top to bottom, return the target field
of the first record whose (trimmed, lower-cased) source field equals the
(already lower-cased) key. -/
def scanLines (lines : List String) (key : String) : Option String :=
  match lines with
  | [] => none
  | line :: rest =>
    match parseLine line with
    | some (src, tgt) => if jsLower src == key then some tgt else scanLines rest key
    | none => scanLines rest key

/-- The data-directory file system (`backend/data`).  `files` maps a file
name to its content when the file exists.  The three error predicates
model `fs` calls that throw: `readErr` for `readFileSync`
(and the directory scan feeding it), `appendErr` for `appendFileSync`,
`writeErr` for `writeFileSync`.  `existsSync` itself never throws. -/
structure FS where
  files : String → Option String
  readErr : String → Bool
  appendErr : String → Bool
  writeErr : String → Bool

/-- `fs.existsSync` on a data file. -/
def FS.existsFile (fs : FS) (name : String) : Bool :=
  (fs.files name).isSome

/-- `fs.readFileSync`: throws when the file is missing or flagged
unreadable. -/
def FS.readFile (fs : FS) (name : String) : Except Unit String :=
  if fs.readErr name then .error ()
  else
    match fs.files name with
    | some c => .ok c
    | none => .error ()

/-- Replace (or create) the content of one file, leaving the rest of the
state alone. -/
def FS.setFile (fs : FS) (name content : String) : FS :=
  { fs with files := fun n => if n == name then some content else fs.files n }

/-- `fs.appendFileSync`: appends to the file, creating it when missing;
throws when flagged. -/
def FS.appendFile (fs : FS) (name text : String) : Except Unit FS :=
  if fs.appendErr name then .error ()
  else .ok (fs.setFile name (((fs.files name).getD "") ++ text))

/-- `fs.writeFileSync`: overwrites (or creates) the file; throws when
flagged. -/
def FS.writeFile (fs : FS) (name content : String) : Except Unit FS :=
  if fs.writeErr name then .error ()
  else .ok (fs.setFile name content)

/-- The eight hard-coded idiom files of `lookupCulturalIdiom`; the JS
code assigns `idiomFile` through eight mutually exclusive `if`s. -/
def idiomFileName (sourceLang targetLang : String) : Option String :=
  if sourceLang == "en" && targetLang == "hi" then some "en-hi-idioms.csv"
  else if sourceLang == "en" && targetLang == "mr" then some "en-mr-idioms.csv"
  else if sourceLang == "en" && targetLang == "ta" then some "en-ta-idioms.csv"
  else if sourceLang == "en" && targetLang == "te" then some "en-te-idioms.csv"
  else if sourceLang == "mr" && targetLang == "en" then some "mr-en-idioms.csv"
  else if sourceLang == "hi" && targetLang == "en" then some "hi-en-idioms.csv"
  else if sourceLang == "ta" && targetLang == "en" then some "ta-en-idioms.csv"
  else if sourceLang == "te" && targetLang == "en" then some "te-en-idioms.csv"
  else none

/-- `lookupCulturalIdiom(text, sourceLang, targetLang)`: directional
exact (case-insensitive, trimmed) match against the pair's idiom file;
any read failure is caught and yields `null`. -/
def lookupCulturalIdiom (fs : FS) (text sourceLang targetLang : String) :
    Option String :=
  match idiomFileName sourceLang targetLang with
  | none => none
  | some f =>
    match fs.readFile f with
    | .error _ => none
    | .ok csv => scanLines (splitLines csv) (jsLower (jsTrim text))

/-- `getPhraseFromCSV(text, sourceLang, targetLang)` from `translateText`:
reads `<src>-<tgt>.csv` from the data directory (the JS code lists the
directory and looks for exactly that name) and scans it; the whole body
is wrapped in try/catch returning `null`, so every failure (missing
directory, missing file, unreadable file) is a miss. -/
def getPhraseFromCSV (fs : FS) (text sourceLang targetLang : String) :
    Option String :=
  match fs.readFile (sourceLang ++ "-" ++ targetLang ++ ".csv") with
  | .error _ => none
  | .ok csv => scanLines (splitLines csv) (jsLower (jsTrim text))

/-- The local engine as `translateText` sees it: one `localTranslate`
invocation, which may fail (a rejected promise). -/
abbrev Engine := String → String → String → Except Unit String

/-- `nllbLangMap` (src/unnamed/part_002): application language codes to
NLLB-200 codes. -/
def nllbLangMap : List (String × String) :=
  [("en", "eng_Latn"), ("hi", "hin_Deva"), ("mr", "mar_Deva"),
   ("ta", "tam_Taml"), ("te", "tel_Telu")]

/-- `nllbLangMap[lang] || 'eng_Latn'`: the silent fallback of
`localTranslate` for codes outside the map. -/
def nllbCode (lang : String) : String :=
  ((nllbLangMap.find? (fun p => p.1 == lang)).map Prod.snd).getD "eng_Latn"

/-- The loaded model as `localTranslate` invokes it:
`translator(text, { src_lang, tgt_lang })` with NLLB codes; may fail. -/
abbrev Translator := String → String → String → Except Unit String

/-- `localTranslate(text, sourceLang, targetLang)` (src/unnamed/part_002):
maps both codes through `nllbLangMap` falling back silently to
`eng_Latn`, invokes the model once, and substitutes the input text for a
missing or empty translation (`result[0]?.translation_text || text`). -/
def localTranslate (tr : Translator) (text sourceLang targetLang : String) :
    Except Unit String :=
  match tr text (nllbCode sourceLang) (nllbCode targetLang) with
  | .error e => .error e
  | .ok r => .ok (if r == "" then text else r)

/-- The engine stage of `translateText` (lines 66–71 of translate.js):
a single direct call when either endpoint is English, otherwise the
source→English result is fed into a second English→target call, keeping
only the final text.  The second component counts `localTranslate`
invocations actually started. -/
def enginePipeline (eng : Engine) (text sourceLanguage targetLanguage : String) :
    Except Unit String × Nat :=
  if sourceLanguage == "en" || targetLanguage == "en" then
    (eng text sourceLanguage targetLanguage, 1)
  else
    match eng text sourceLanguage "en" with
    | .error e => (.error e, 1)
    | .ok intermediate => (eng intermediate "en" targetLanguage, 2)

/-- The value resolved by `translateText`. -/
structure TranslationResult where
  translatedText : String
deriving DecidableEq, Repr

/-- `translateText(text, targetLanguage, sourceLanguage)` (translate.js):
short-circuit on blank text or equal languages; idiom lookup next,
returning immediately on a hit; otherwise the phrase lookup and the
engine pipeline run and are awaited together (`Promise.all`), so an
engine failure rejects the whole call even when the phrase lookup hit;
on success the phrase value wins, else the engine result is used exactly
when it is non-empty and differs case-insensitively (trimmed) from the
input, else the input is echoed.  The `Nat` counts engine invocations.
(The JS function also accepts an options object as second argument,
modelled separately by `translateTextOpts`, and computes an unused
`enableCulturalAdaptation` flag, omitted here.) -/
def translateText (fs : FS) (eng : Engine)
    (text targetLanguage sourceLanguage : String) :
    Except Unit TranslationResult × Nat :=
  if jsTrim text == "" || sourceLanguage == targetLanguage then
    (.ok ⟨text⟩, 0)
  else
    match lookupCulturalIdiom fs text sourceLanguage targetLanguage with
    | some idiom => (.ok ⟨idiom⟩, 0)
    | none =>
      let phrase := getPhraseFromCSV fs text sourceLanguage targetLanguage
      match enginePipeline eng text sourceLanguage targetLanguage with
      | (.error e, n) => (.error e, n)
      | (.ok localResult, n) =>
        match phrase with
        | some p => (.ok ⟨p⟩, n)
        | none =>
          if localResult != "" && jsLower (jsTrim localResult) != jsLower (jsTrim text)
          then (.ok ⟨localResult⟩, n)
          else (.ok ⟨text⟩, n)

/-- The options object accepted by `translateText` when its second
argument is an object.  `none` models an absent property. -/
structure TranslateOptions where
  targetLanguage : Option String := none
  sourceLanguage : Option String := none
  culturalAdaptation : Bool := false

/-- `options.targetLanguage || 'en'`: JS falls back to `'en'` on an
absent property and on the falsy empty string. -/
def jsOrEn (o : Option String) : String :=
  match o with
  | some s => if s == "" then "en" else s
  | none => "en"

/-- `translateText(text, options)`: the overload taken when the second
argument is an object — both language codes are read from the object with
`|| 'en'` defaulting, then the ordinary path runs. -/
def translateTextOpts (fs : FS) (eng : Engine) (text : String)
    (opts : TranslateOptions) : Except Unit TranslationResult × Nat :=
  translateText fs eng text (jsOrEn opts.targetLanguage) (jsOrEn opts.sourceLanguage)

/-- The result of `detectLanguage`.  Confidence constants are exact
rationals standing for the JS number literals 1, 0.8 and 0.5. -/
structure DetectionResult where
  language : String
  confidence : ℚ
deriving DecidableEq, Repr

/-- Membership of a code point in an inclusive range, as a JS character
class `[\uLO-\uHI]` tests it (all ranges used here lie in the BMP, so
code-unit and code-point tests agree). -/
def inRange (lo hi : Nat) (c : Char) : Bool :=
  decide (lo ≤ c.toNat ∧ c.toNat ≤ hi)

/-- `/[஀-௿]/.test text` — Tamil block. -/
def hasTamil (text : String) : Bool := text.data.any (inRange 0xB80 0xBFF)

/-- `/[ఀ-౿]/.test text` — Telugu block. -/
def hasTelugu (text : String) : Bool := text.data.any (inRange 0xC00 0xC7F)

/-- `/[ऀ-ॿ]/.test text` — Devanagari block (the JS file binds
identical `hindiRegex` and `marathiRegex` to this range). -/
def hasDevanagari (text : String) : Bool := text.data.any (inRange 0x900 0x97F)

/-- `detectLanguage(text)` (translate.js lines 103–117): fixed priority
Tamil → Telugu → Devanagari (always resolved to Hindi) → default
English. -/
def detectLanguage (text : String) : DetectionResult :=
  if hasTamil text then ⟨"ta", 1⟩
  else if hasTelugu text then ⟨"te", 1⟩
  else if hasDevanagari text then ⟨"hi", 4/5⟩
  else ⟨"en", 1/2⟩

/-- The route's presence scan inside the CSV-update block of
`router.post('/')` (translation.js): unlike `getPhraseFromCSV` it only
requires a truthy source field (`if (src && src.toLowerCase() === ...)`),
ignoring the target field. -/
def routeFoundScan (lines : List String) (key : String) : Bool :=
  lines.any (fun line =>
    match parseFields line with
    | src :: _ => src != "" && jsLower src == key
    | [] => false)

/-- The `try` block of the CSV cache-update step of `router.post('/')`:
check presence (`existsSync`), scan a readable existing file with the
route's found-scan, and append the record when it was not found.  Any
`fs` failure inside surfaces as `Except.error` to the `catch`. -/
def cacheTryBlock (fs : FS) (name record key : String) : Except Unit FS :=
  if fs.existsFile name then
    match fs.readFile name with
    | .error e => .error e
    | .ok csv =>
      if routeFoundScan (splitLines csv) key then .ok fs
      else fs.appendFile name record
  else fs.appendFile name record

/-- The CSV cache-update block of `router.post('/')` (translation.js
lines 41–73).  Runs only when the returned text is truthy and differs
case-insensitively (trimmed) from the processed input.  Any exception
inside the try block is caught and answered with `writeFileSync` of the
single record, whose own failure escapes (`Except.error`) to the route's
outer catch. -/
def cacheUpdate (fs : FS) (processedText translated detected target : String) :
    Except Unit FS :=
  if translated != "" && jsLower (jsTrim translated) != jsLower (jsTrim processedText) then
    match cacheTryBlock fs (detected ++ "-" ++ target ++ ".csv")
        ("\"" ++ jsTrim processedText ++ "\",\"" ++ jsTrim translated ++ "\"\n")
        (jsLower (jsTrim processedText)) with
    | .ok fs1 => .ok fs1
    | .error _ =>
      fs.writeFile (detected ++ "-" ++ target ++ ".csv")
        ("\"" ++ jsTrim processedText ++ "\",\"" ++ jsTrim translated ++ "\"\n")
  else .ok fs

/-- The JSON answered by `router.post('/')`: HTTP status, the text
echoed as `original`, the `translated` field, and `detectedLanguage`.
(The handler also echoes preprocessing flags and an always-undefined
confidence, which no claim mentions.) -/
structure RouteResponse where
  status : Nat
  original : String
  translated : String
  detectedLanguage : String
deriving DecidableEq, Repr

/-- `router.post('/')` from the `translateText` call onward (translation.js
lines 38–103): translate with the detected source language, run the CSV
cache update, answer 200 with the translation; any exception thrown by
either step lands in the outer catch, which answers 500 with the input
text as fallback translation and `detectedLanguage: 'en'`.  The `Nat` is
the engine invocation count of this request. -/
def routeCore (fs : FS) (eng : Engine)
    (processedText targetLanguage detectedLanguage : String) :
    FS × RouteResponse × Nat :=
  match translateText fs eng processedText targetLanguage detectedLanguage with
  | (.error _, n) =>
    (fs, ⟨500, processedText, processedText, "en"⟩, n)
  | (.ok result, n) =>
    match cacheUpdate fs processedText result.translatedText detectedLanguage targetLanguage with
    | .ok fs1 => (fs1, ⟨200, processedText, result.translatedText, detectedLanguage⟩, n)
    | .error _ => (fs, ⟨500, processedText, processedText, "en"⟩, n)

/-- The full handler on an already-preprocessed text: source language is
the detector's output (the detector never throws, so its catch-fallback
to `'en'` is dead).  The preprocessing stage (`utils/preprocess`) is an
external collaborator of this subsystem; the handler is modelled from
its output text onward. -/
def handleTranslateRequest (fs : FS) (eng : Engine)
    (text targetLanguage : String) : FS × RouteResponse × Nat :=
  routeCore fs eng text targetLanguage (detectLanguage text).language

/-! ## Local engine model loading (src/unnamed/part_002)

`loadModel` runs synchronously from its entry to the single `await`: it
checks `modelCache.translator`, then `modelCache.translatorPromise`,
starts `pipeline(...)` and stores the promise when absent — all within
one event-loop turn — and only then yields at
`modelCache.translator = await modelCache.translatorPromise`.  The model
below gives each concurrent caller two atomic phases separated exactly at
that `await`, and lets an arbitrary scheduler interleave callers. -/

/-- Where a concurrent `loadModel` caller stands: before its synchronous
prefix, suspended on the shared `await`, or returned. -/
inductive CallerPhase where
  | start
  | awaiting
  | done
deriving DecidableEq, Repr

/-- Process-wide state: whether `modelCache.translatorPromise` is set,
whether `modelCache.translator` is set, how many times `pipeline(...)`
was invoked, and each caller's phase. -/
structure EngineSys where
  promiseSet : Bool
  translatorSet : Bool
  loadCount : Nat
  callers : List CallerPhase
deriving Repr, DecidableEq

/-- One scheduler step running caller `i`.  A `start` caller executes the
synchronous prefix of `loadModel`: with the translator already cached it
returns at once; otherwise it stores the in-flight promise — invoking
`pipeline` only when no promise is cached yet — and suspends on the
`await`.  An `awaiting` caller resumes when the shared promise resolves,
stores the translator and returns.  Out-of-range and finished callers do
nothing. -/
def stepCaller (s : EngineSys) (i : Nat) : EngineSys :=
  match s.callers.get? i with
  | none => s
  | some .done => s
  | some .start =>
    if s.translatorSet then
      { s with callers := s.callers.set i .done }
    else if s.promiseSet then
      { s with callers := s.callers.set i .awaiting }
    else
      { s with promiseSet := true, loadCount := s.loadCount + 1,
               callers := s.callers.set i .awaiting }
  | some .awaiting =>
    { s with translatorSet := true, callers := s.callers.set i .done }

/-- Run a whole schedule (a sequence of caller choices). -/
def runSched (s : EngineSys) (sched : List Nat) : EngineSys :=
  sched.foldl stepCaller s

/-- `n` concurrent first-call translations against an unloaded engine:
nothing cached, no load yet, every caller about to enter `loadModel`. -/
def initSys (n : Nat) : EngineSys :=
  ⟨false, false, 0, List.replicate n .start⟩

/-! ## Concrete instances used by counterexamples and witnesses -/

/-- An empty data directory with no failure injected. -/
def fsEmpty : FS := ⟨fun _ => none, fun _ => false, fun _ => false, fun _ => false⟩

/-- A data directory holding only the seeded `en→hi` idiom table entry
`"good morning" → "सुप्रभात"`. -/
def fsIdiomOnly : FS :=
  { fsEmpty with files := fun n =>
      if n == "en-hi-idioms.csv" then some "\"good morning\",\"सुप्रभात\"\n" else none }

/-- A data directory holding only the phrase-cache record
`"hello" → "namaste"` for the `en→hi` pair. -/
def fsPhraseOnly : FS :=
  { fsEmpty with files := fun n =>
      if n == "en-hi.csv" then some "\"hello\",\"namaste\"\n" else none }

/-- An empty data directory on which both appending to and writing
`en-hi.csv` fail. -/
def fsBothFail : FS :=
  { fsEmpty with
      appendErr := fun n => n == "en-hi.csv",
      writeErr := fun n => n == "en-hi.csv" }

/-- An empty data directory on which appending to `en-hi.csv` fails but
writing it succeeds. -/
def fsAppendFail : FS :=
  { fsEmpty with appendErr := fun n => n == "en-hi.csv" }

/-- A data directory holding the seeded `en→hi` idiom table entry and an
existing `en-hi.csv` phrase-cache file with an unrelated record. -/
def fsIdiomAndPhrase : FS :=
  { fsEmpty with files := fun n =>
      if n == "en-hi-idioms.csv" then some "\"good morning\",\"सुप्रभात\"\n"
      else if n == "en-hi.csv" then some "\"bye\",\"alvida\"\n" else none }

/-- A data directory with an existing `en-hi.csv` holding an unrelated
record, on which appending to `en-hi.csv` fails but writing it
succeeds. -/
def fsPhraseAppendFail : FS :=
  { fsEmpty with
      files := fun n =>
        if n == "en-hi.csv" then some "\"bye\",\"alvida\"\n" else none,
      appendErr := fun n => n == "en-hi.csv" }

/-- An engine echoing its input unchanged. -/
def engEcho : Engine := fun t _ _ => .ok t

/-- An engine answering `namaste` for Hindi targets and echoing
otherwise. -/
def engNamaste : Engine := fun t _ tgt => .ok (if tgt == "hi" then "namaste" else t)

/-- An engine whose every invocation fails (rejected promise). -/
def engFail : Engine := fun _ _ _ => .error ()

/-- An engine answering a fixed value unrelated to the caches. -/
def engOther : Engine := fun _ _ _ => .ok "engine-output"

/-! ## Shared lemmas -/

theorem translateText_same_lang (fs : FS) (eng : Engine) (t lang : String) :
    translateText fs eng t lang lang = (.ok ⟨t⟩, 0) := by
  simp [translateText]

theorem translateText_blank (fs : FS) (eng : Engine) (t tgt src : String)
    (h : jsTrim t = "") : translateText fs eng t tgt src = (.ok ⟨t⟩, 0) := by
  simp [translateText, h]

theorem cacheUpdate_self (fs : FS) (t det tgt : String) :
    cacheUpdate fs t t det tgt = .ok fs := by
  simp [cacheUpdate]

theorem routeCore_same_lang (fs : FS) (eng : Engine) (t lang : String) :
    routeCore fs eng t lang lang = (fs, ⟨200, t, t, lang⟩, 0) := by
  simp [routeCore, translateText_same_lang, cacheUpdate_self]

theorem routeCore_blank (fs : FS) (eng : Engine) (t tgt src : String)
    (h : jsTrim t = "") : routeCore fs eng t tgt src = (fs, ⟨200, t, t, src⟩, 0) := by
  simp [routeCore, translateText_blank fs eng t tgt src h, cacheUpdate_self]

theorem setFile_files_self (fs : FS) (name content : String) :
    (fs.setFile name content).files name = some content := by
  simp [FS.setFile]

theorem setFile_files_ne (fs : FS) (name content f : String) (h : f ≠ name) :
    (fs.setFile name content).files f = fs.files f := by
  simp [FS.setFile, h]

theorem readFile_setFile_ne (fs : FS) (name content f : String) (h : f ≠ name) :
    (fs.setFile name content).readFile f = fs.readFile f := by
  simp [FS.readFile, FS.setFile, h]

theorem str_empty_append (s : String) : "" ++ s = s := rfl

theorem parseLine_some {line a b : String} (h : parseLine line = some (a, b)) :
    a ≠ "" ∧ b ≠ "" ∧ ∃ rest, parseFields line = a :: b :: rest := by
  unfold parseLine at h
  split at h
  · next src tgt rest heq =>
    split at h
    · next hcond =>
      rw [Bool.and_eq_true, bne_iff_ne, bne_iff_ne] at hcond
      cases h
      exact ⟨hcond.1, hcond.2, rest, heq⟩
    · cases h
  · cases h

theorem scanLines_cons_hit {line a b : String} (rest : List String)
    (h : parseLine line = some (a, b)) :
    scanLines (line :: rest) (jsLower a) = some b := by
  unfold scanLines
  rw [h]
  simp

theorem scanLines_cons (line : String) (rest : List String) (key : String) :
    scanLines (line :: rest) key =
      match parseLine line with
      | some (a, b) => if jsLower a == key then some b else scanLines rest key
      | none => scanLines rest key := rfl

theorem scanLines_append_of_none {xs : List String} (ys : List String)
    {key : String} (h : scanLines xs key = none) :
    scanLines (xs ++ ys) key = scanLines ys key := by
  induction xs with
  | nil => rfl
  | cons line rest ih =>
    rw [List.cons_append]
    cases hp : parseLine line with
    | none =>
      simp only [scanLines_cons, hp] at h ⊢
      exact ih h
    | some pr =>
      obtain ⟨a, b⟩ := pr
      simp only [scanLines_cons, hp] at h ⊢
      cases hk : (jsLower a == key) with
      | true =>
        simp [hk] at h
      | false =>
        simp only [hk, Bool.false_eq_true, if_false] at h ⊢
        exact ih h

theorem idiomFileName_ne_pair {src tgt f : String}
    (h : idiomFileName src tgt = some f) :
    f ≠ src ++ "-" ++ tgt ++ ".csv" := by
  unfold idiomFileName at h
  repeat' split at h
  all_goals
    first
      | exact Option.noConfusion h
      | (rename_i hc
         rw [Bool.and_eq_true, beq_iff_eq, beq_iff_eq] at hc
         obtain ⟨hs, ht⟩ := hc
         subst hs
         subst ht
         cases h
         decide)

theorem lookupCulturalIdiom_setFile_pair (fs : FS)
    (text src tgt content : String) :
    lookupCulturalIdiom (fs.setFile (src ++ "-" ++ tgt ++ ".csv") content)
        text src tgt =
      lookupCulturalIdiom fs text src tgt := by
  cases hidx : idiomFileName src tgt with
  | none => simp only [lookupCulturalIdiom, hidx]
  | some f =>
    simp only [lookupCulturalIdiom, hidx]
    rw [readFile_setFile_ne fs _ content f (idiomFileName_ne_pair hidx)]

theorem enginePipeline_count_pos (eng : Engine) (text src tgt : String) :
    1 ≤ (enginePipeline eng text src tgt).2 := by
  unfold enginePipeline
  split
  · simp
  · split <;> simp

/-- `translateText` past the short-circuit, stated as the cascade the JS
code runs. -/
theorem translateText_step (fs : FS) (eng : Engine) (text tgt src : String)
    (h1 : jsTrim text ≠ "") (h2 : src ≠ tgt) :
    translateText fs eng text tgt src =
      match lookupCulturalIdiom fs text src tgt with
      | some idiom => (.ok ⟨idiom⟩, 0)
      | none =>
        match enginePipeline eng text src tgt with
        | (.error e, n) => (.error e, n)
        | (.ok localResult, n) =>
          match getPhraseFromCSV fs text src tgt with
          | some p => (.ok ⟨p⟩, n)
          | none =>
            if localResult != "" &&
                jsLower (jsTrim localResult) != jsLower (jsTrim text)
            then (.ok ⟨localResult⟩, n) else (.ok ⟨text⟩, n) := by
  unfold translateText
  rw [if_neg]
  simp [h1, h2]

theorem translateText_idiom_hit (fs : FS) (eng : Engine)
    (text tgt src g : String) (h1 : jsTrim text ≠ "") (h2 : src ≠ tgt)
    (hid : lookupCulturalIdiom fs text src tgt = some g) :
    translateText fs eng text tgt src = (.ok ⟨g⟩, 0) := by
  rw [translateText_step fs eng text tgt src h1 h2, hid]

theorem translateText_engine_err (fs : FS) (eng : Engine)
    (text tgt src : String) (n : Nat) (h1 : jsTrim text ≠ "") (h2 : src ≠ tgt)
    (hid : lookupCulturalIdiom fs text src tgt = none)
    (heng : enginePipeline eng text src tgt = (.error (), n)) :
    translateText fs eng text tgt src = (.error (), n) := by
  rw [translateText_step fs eng text tgt src h1 h2, hid, heng]

theorem translateText_phrase_hit (fs : FS) (eng : Engine)
    (text tgt src r p : String) (n : Nat) (h1 : jsTrim text ≠ "")
    (h2 : src ≠ tgt) (hid : lookupCulturalIdiom fs text src tgt = none)
    (heng : enginePipeline eng text src tgt = (.ok r, n))
    (hph : getPhraseFromCSV fs text src tgt = some p) :
    translateText fs eng text tgt src = (.ok ⟨p⟩, n) := by
  rw [translateText_step fs eng text tgt src h1 h2, hid, heng, hph]

theorem translateText_engine_only (fs : FS) (eng : Engine)
    (text tgt src r : String) (n : Nat) (h1 : jsTrim text ≠ "")
    (h2 : src ≠ tgt) (hid : lookupCulturalIdiom fs text src tgt = none)
    (heng : enginePipeline eng text src tgt = (.ok r, n))
    (hph : getPhraseFromCSV fs text src tgt = none) :
    translateText fs eng text tgt src =
      (if r != "" && jsLower (jsTrim r) != jsLower (jsTrim text)
       then (.ok ⟨r⟩, n) else (.ok ⟨text⟩, n)) := by
  rw [translateText_step fs eng text tgt src h1 h2, hid, heng, hph]

theorem routeCore_of_ok (fs : FS) (eng : Engine) (text tgt src res : String)
    (n : Nat) (htr : translateText fs eng text tgt src = (.ok ⟨res⟩, n)) :
    routeCore fs eng text tgt src =
      match cacheUpdate fs text res src tgt with
      | .ok fs1 => (fs1, ⟨200, text, res, src⟩, n)
      | .error _ => (fs, ⟨500, text, text, "en"⟩, n) := by
  unfold routeCore
  rw [htr]

theorem routeCore_of_err (fs : FS) (eng : Engine) (text tgt src : String)
    (n : Nat) (htr : translateText fs eng text tgt src = (.error (), n)) :
    routeCore fs eng text tgt src = (fs, ⟨500, text, text, "en"⟩, n) := by
  unfold routeCore
  rw [htr]

theorem cacheTryBlock_ok_shape {fs fs1 : FS} {name record key : String}
    (h : cacheTryBlock fs name record key = .ok fs1) :
    fs1 = fs ∨ fs1 = fs.setFile name (((fs.files name).getD "") ++ record) := by
  unfold cacheTryBlock at h
  split at h
  · split at h
    · cases h
    · split at h
      · cases h
        exact Or.inl rfl
      · unfold FS.appendFile at h
        split at h
        · cases h
        · cases h
          exact Or.inr rfl
  · unfold FS.appendFile at h
    split at h
    · cases h
    · cases h
      exact Or.inr rfl

theorem cacheUpdate_ok_shape {fs fs1 : FS} {a b det tgt : String}
    (h : cacheUpdate fs a b det tgt = .ok fs1) :
    fs1 = fs ∨ ∃ content,
      fs1 = fs.setFile (det ++ "-" ++ tgt ++ ".csv") content := by
  unfold cacheUpdate at h
  split at h
  · split at h
    · next fs2 heq =>
      cases h
      rcases cacheTryBlock_ok_shape heq with h | h
      · exact Or.inl h
      · exact Or.inr ⟨_, h⟩
    · unfold FS.writeFile at h
      split at h
      · cases h
      · cases h
        exact Or.inr ⟨_, rfl⟩
  · cases h
    exact Or.inl rfl

theorem routeCore_files_ne (fs : FS) (eng : Engine) (text tgt src f : String)
    (hf : f ≠ src ++ "-" ++ tgt ++ ".csv") :
    (routeCore fs eng text tgt src).1.files f = fs.files f := by
  unfold routeCore
  split
  · rfl
  · split
    · next fs1 heq =>
      rcases cacheUpdate_ok_shape heq with h | ⟨content, h⟩
      · rw [h]
      · rw [h]
        exact setFile_files_ne fs _ content f hf
    · rfl

theorem cacheUpdate_noop (fs : FS) (text res det tgt : String)
    (hcond : (res != "" && jsLower (jsTrim res) != jsLower (jsTrim text)) = false) :
    cacheUpdate fs text res det tgt = .ok fs := by
  unfold cacheUpdate
  rw [if_neg (by simp [hcond])]

theorem cacheUpdate_append_absent (fs : FS) (text res det tgt : String)
    (hres : res ≠ "") (hdiff : jsLower (jsTrim res) ≠ jsLower (jsTrim text))
    (hnofile : fs.files (det ++ "-" ++ tgt ++ ".csv") = none)
    (happ : fs.appendErr (det ++ "-" ++ tgt ++ ".csv") = false) :
    cacheUpdate fs text res det tgt =
      .ok (fs.setFile (det ++ "-" ++ tgt ++ ".csv")
        ("\"" ++ jsTrim text ++ "\",\"" ++ jsTrim res ++ "\"\n")) := by
  unfold cacheUpdate
  rw [if_pos (by simp [bne_iff_ne, hres, hdiff])]
  unfold cacheTryBlock
  rw [if_neg (by simp [FS.existsFile, hnofile])]
  unfold FS.appendFile
  rw [if_neg (by simp [happ]), hnofile]
  rfl

theorem cacheUpdate_append_exists (fs : FS) (text res det tgt csv : String)
    (hres : res ≠ "") (hdiff : jsLower (jsTrim res) ≠ jsLower (jsTrim text))
    (hfile : fs.files (det ++ "-" ++ tgt ++ ".csv") = some csv)
    (hread : fs.readErr (det ++ "-" ++ tgt ++ ".csv") = false)
    (hscan : routeFoundScan (splitLines csv) (jsLower (jsTrim text)) = false)
    (happ : fs.appendErr (det ++ "-" ++ tgt ++ ".csv") = false) :
    cacheUpdate fs text res det tgt =
      .ok (fs.setFile (det ++ "-" ++ tgt ++ ".csv")
        (csv ++ ("\"" ++ jsTrim text ++ "\",\"" ++ jsTrim res ++ "\"\n"))) := by
  unfold cacheUpdate
  rw [if_pos (by simp [bne_iff_ne, hres, hdiff])]
  unfold cacheTryBlock
  rw [if_pos (by simp [FS.existsFile, hfile])]
  unfold FS.readFile
  rw [if_neg (by simp [hread]), hfile]
  dsimp only
  rw [if_neg (by simp [hscan])]
  unfold FS.appendFile
  rw [if_neg (by simp [happ]), hfile]
  rfl

theorem cacheUpdate_found (fs : FS) (text res det tgt csv : String)
    (hfile : fs.files (det ++ "-" ++ tgt ++ ".csv") = some csv)
    (hread : fs.readErr (det ++ "-" ++ tgt ++ ".csv") = false)
    (hscan : routeFoundScan (splitLines csv) (jsLower (jsTrim text)) = true) :
    cacheUpdate fs text res det tgt = .ok fs := by
  unfold cacheUpdate
  split
  · unfold cacheTryBlock
    rw [if_pos (by simp [FS.existsFile, hfile])]
    unfold FS.readFile
    rw [if_neg (by simp [hread]), hfile]
    dsimp only
    rw [if_pos hscan]
  · rfl

theorem cacheUpdate_append_fail_write_ok (fs : FS) (text res det tgt : String)
    (hres : res ≠ "") (hdiff : jsLower (jsTrim res) ≠ jsLower (jsTrim text))
    (hnofile : fs.files (det ++ "-" ++ tgt ++ ".csv") = none)
    (happ : fs.appendErr (det ++ "-" ++ tgt ++ ".csv") = true)
    (hw : fs.writeErr (det ++ "-" ++ tgt ++ ".csv") = false) :
    cacheUpdate fs text res det tgt =
      .ok (fs.setFile (det ++ "-" ++ tgt ++ ".csv")
        ("\"" ++ jsTrim text ++ "\",\"" ++ jsTrim res ++ "\"\n")) := by
  unfold cacheUpdate
  rw [if_pos (by simp [bne_iff_ne, hres, hdiff])]
  unfold cacheTryBlock
  rw [if_neg (by simp [FS.existsFile, hnofile])]
  unfold FS.appendFile
  rw [if_pos (by simp [happ])]
  unfold FS.writeFile
  rw [if_neg (by simp [hw])]

theorem cacheUpdate_append_fail_write_fail (fs : FS) (text res det tgt : String)
    (hres : res ≠ "") (hdiff : jsLower (jsTrim res) ≠ jsLower (jsTrim text))
    (hnofile : fs.files (det ++ "-" ++ tgt ++ ".csv") = none)
    (happ : fs.appendErr (det ++ "-" ++ tgt ++ ".csv") = true)
    (hw : fs.writeErr (det ++ "-" ++ tgt ++ ".csv") = true) :
    cacheUpdate fs text res det tgt = .error () := by
  unfold cacheUpdate
  rw [if_pos (by simp [bne_iff_ne, hres, hdiff])]
  unfold cacheTryBlock
  rw [if_neg (by simp [FS.existsFile, hnofile])]
  unfold FS.appendFile
  rw [if_pos (by simp [happ])]
  unfold FS.writeFile
  rw [if_pos (by simp [hw])]

theorem cacheUpdate_exists_append_fail_write_ok (fs : FS)
    (text res det tgt csv : String)
    (hres : res ≠ "") (hdiff : jsLower (jsTrim res) ≠ jsLower (jsTrim text))
    (hfile : fs.files (det ++ "-" ++ tgt ++ ".csv") = some csv)
    (hread : fs.readErr (det ++ "-" ++ tgt ++ ".csv") = false)
    (hscan : routeFoundScan (splitLines csv) (jsLower (jsTrim text)) = false)
    (happ : fs.appendErr (det ++ "-" ++ tgt ++ ".csv") = true)
    (hw : fs.writeErr (det ++ "-" ++ tgt ++ ".csv") = false) :
    cacheUpdate fs text res det tgt =
      .ok (fs.setFile (det ++ "-" ++ tgt ++ ".csv")
        ("\"" ++ jsTrim text ++ "\",\"" ++ jsTrim res ++ "\"\n")) := by
  unfold cacheUpdate
  rw [if_pos (by simp [bne_iff_ne, hres, hdiff])]
  unfold cacheTryBlock
  rw [if_pos (by simp [FS.existsFile, hfile])]
  unfold FS.readFile
  rw [if_neg (by simp [hread]), hfile]
  dsimp only
  rw [if_neg (by simp [hscan])]
  unfold FS.appendFile
  rw [if_pos (by simp [happ])]
  unfold FS.writeFile
  rw [if_neg (by simp [hw])]

theorem cacheUpdate_exists_append_fail_write_fail (fs : FS)
    (text res det tgt csv : String)
    (hres : res ≠ "") (hdiff : jsLower (jsTrim res) ≠ jsLower (jsTrim text))
    (hfile : fs.files (det ++ "-" ++ tgt ++ ".csv") = some csv)
    (hread : fs.readErr (det ++ "-" ++ tgt ++ ".csv") = false)
    (hscan : routeFoundScan (splitLines csv) (jsLower (jsTrim text)) = false)
    (happ : fs.appendErr (det ++ "-" ++ tgt ++ ".csv") = true)
    (hw : fs.writeErr (det ++ "-" ++ tgt ++ ".csv") = true) :
    cacheUpdate fs text res det tgt = .error () := by
  unfold cacheUpdate
  rw [if_pos (by simp [bne_iff_ne, hres, hdiff])]
  unfold cacheTryBlock
  rw [if_pos (by simp [FS.existsFile, hfile])]
  unfold FS.readFile
  rw [if_neg (by simp [hread]), hfile]
  dsimp only
  rw [if_neg (by simp [hscan])]
  unfold FS.appendFile
  rw [if_pos (by simp [happ])]
  unfold FS.writeFile
  rw [if_pos (by simp [hw])]

theorem enginePipeline_total (eng : Engine)
    (h : ∀ a b c, ∃ r, eng a b c = .ok r) (text s t : String) :
    ∃ r n, enginePipeline eng text s t = (.ok r, n) := by
  unfold enginePipeline
  split
  · obtain ⟨r, hr⟩ := h text s t
    exact ⟨r, 1, by rw [hr]⟩
  · obtain ⟨mid, hmid⟩ := h text s "en"
    rw [hmid]
    dsimp only
    obtain ⟨r, hr⟩ := h mid "en" t
    exact ⟨r, 2, by rw [hr]⟩

theorem translateText_total (fs : FS) (eng : Engine) (text tgt src : String)
    (h : ∀ a b c, ∃ r, eng a b c = .ok r) :
    ∃ res n, translateText fs eng text tgt src = (.ok res, n) := by
  by_cases hsc : jsTrim text = ""
  · exact ⟨⟨text⟩, 0, translateText_blank fs eng text tgt src hsc⟩
  by_cases heq : src = tgt
  · subst heq
    exact ⟨⟨text⟩, 0, translateText_same_lang fs eng text src⟩
  cases hid : lookupCulturalIdiom fs text src tgt with
  | some g =>
    exact ⟨⟨g⟩, 0, translateText_idiom_hit fs eng text tgt src g hsc heq hid⟩
  | none =>
    obtain ⟨r, n, heng⟩ := enginePipeline_total eng h text src tgt
    cases hph : getPhraseFromCSV fs text src tgt with
    | some p =>
      exact ⟨⟨p⟩, n,
        translateText_phrase_hit fs eng text tgt src r p n hsc heq hid heng hph⟩
    | none =>
      refine ⟨if r != "" && jsLower (jsTrim r) != jsLower (jsTrim text)
          then ⟨r⟩ else ⟨text⟩, n, ?_⟩
      rw [translateText_engine_only fs eng text tgt src r n hsc heq hid heng hph]
      split <;> rfl

theorem routeFoundScan_cons_hit {line a : String} {flds : List String}
    (hf : parseFields line = a :: flds) (ha : a ≠ "") (rest : List String) :
    routeFoundScan (line :: rest) (jsLower a) = true := by
  simp [routeFoundScan, hf, ha]

theorem routeFoundScan_append_right {xs ys : List String} {key : String}
    (h : routeFoundScan ys key = true) :
    routeFoundScan (xs ++ ys) key = true := by
  unfold routeFoundScan at h ⊢
  rw [List.any_append, h, Bool.or_true]

theorem getPhraseFromCSV_read (fs : FS) (text src tgt csv : String)
    (hread : fs.readErr (src ++ "-" ++ tgt ++ ".csv") = false)
    (hfile : fs.files (src ++ "-" ++ tgt ++ ".csv") = some csv) :
    getPhraseFromCSV fs text src tgt =
      scanLines (splitLines csv) (jsLower (jsTrim text)) := by
  unfold getPhraseFromCSV
  unfold FS.readFile
  rw [if_neg (by simp [hread]), hfile]

/-! ## Claims -/

/-- C6: for every text `t` and every language code `lang`,
`translateText(t, lang, lang, _)` returns `{translatedText: t}` with no
engine invocation, and likewise every empty or whitespace-only text is
returned unchanged; in both cases no idiom lookup, phrase lookup or
engine call influences the outcome (the result is the same for every
file state and every engine) and the request leaves the file state
untouched (no cache write). -/
theorem C6_same_language_and_blank_short_circuit :
    (∀ (fs : FS) (eng : Engine) (t lang : String),
      translateText fs eng t lang lang = (.ok ⟨t⟩, 0)) ∧
    (∀ (fs : FS) (eng : Engine) (t tgt src : String), jsTrim t = "" →
      translateText fs eng t tgt src = (.ok ⟨t⟩, 0)) ∧
    (∀ (fs : FS) (eng : Engine) (t lang : String),
      (routeCore fs eng t lang lang).1 = fs) ∧
    (∀ (fs : FS) (eng : Engine) (t tgt src : String), jsTrim t = "" →
      (routeCore fs eng t tgt src).1 = fs) := by
  refine ⟨translateText_same_lang, translateText_blank, ?_, ?_⟩
  · intro fs eng t lang
    rw [routeCore_same_lang]
  · intro fs eng t tgt src h
    rw [routeCore_blank fs eng t tgt src h]

/-- C6 witness: the short-circuits evaluated at concrete inputs. -/
theorem C6_same_language_and_blank_short_circuit_witness :
    translateText fsEmpty engEcho "hello" "en" "en" = (.ok ⟨"hello"⟩, 0) ∧
    jsTrim "   " = "" ∧
    translateText fsEmpty engOther "   " "hi" "en" = (.ok ⟨"   "⟩, 0) ∧
    (routeCore fsEmpty engOther "   " "hi" "en").1 = fsEmpty :=
  ⟨C6_same_language_and_blank_short_circuit.1 fsEmpty engEcho "hello" "en",
   by decide,
   C6_same_language_and_blank_short_circuit.2.1 fsEmpty engOther "   " "hi" "en" (by decide),
   C6_same_language_and_blank_short_circuit.2.2.2 fsEmpty engOther "   " "hi" "en" (by decide)⟩

/-- C10: when `translateText` is called with an options object as its
second argument, `targetLanguage` and `sourceLanguage` are read from the
object and each defaults to `'en'` when absent, so `translateText(text,
{})` returns `{translatedText: text}` unchanged (both languages default
to `'en'` and the same-language short-circuit fires), with no engine
invocation. -/
theorem C10_options_object_defaults :
    (∀ (fs : FS) (eng : Engine) (t : String),
      translateTextOpts fs eng t {} = (.ok ⟨t⟩, 0)) ∧
    jsOrEn none = "en" ∧
    (∀ s : String, s ≠ "" → jsOrEn (some s) = s) ∧
    (∀ (fs : FS) (eng : Engine) (t tl sl : String) (b : Bool),
      tl ≠ "" → sl ≠ "" →
      translateTextOpts fs eng t ⟨some tl, some sl, b⟩ =
        translateText fs eng t tl sl) := by
  refine ⟨?_, rfl, ?_, ?_⟩
  · intro fs eng t
    simp [translateTextOpts, jsOrEn, translateText_same_lang]
  · intro s h
    simp [jsOrEn, h]
  · intro fs eng t tl sl b htl hsl
    simp [translateTextOpts, jsOrEn, htl, hsl]

/-- C10 witness: empty options echo the text; populated options are read
as the language pair. -/
theorem C10_options_object_defaults_witness :
    translateTextOpts fsPhraseOnly engOther "sometext" {} = (.ok ⟨"sometext"⟩, 0) ∧
    translateTextOpts fsPhraseOnly engOther "hello" ⟨some "hi", some "en", false⟩ =
      translateText fsPhraseOnly engOther "hello" "hi" "en" :=
  ⟨C10_options_object_defaults.1 fsPhraseOnly engOther "sometext",
   C10_options_object_defaults.2.2.2 fsPhraseOnly engOther "hello" "hi" "en" false
     (by decide) (by decide)⟩

theorem telugu_not_tamil {c : Char} (h : inRange 0xC00 0xC7F c = true) :
    inRange 0xB80 0xBFF c = false := by
  simp only [inRange, decide_eq_true_eq] at h
  simp only [inRange, decide_eq_false_iff_not]
  omega

theorem devanagari_not_tamil {c : Char} (h : inRange 0x900 0x97F c = true) :
    inRange 0xB80 0xBFF c = false := by
  simp only [inRange, decide_eq_true_eq] at h
  simp only [inRange, decide_eq_false_iff_not]
  omega

theorem devanagari_not_telugu {c : Char} (h : inRange 0x900 0x97F c = true) :
    inRange 0xC00 0xC7F c = false := by
  simp only [inRange, decide_eq_true_eq] at h
  simp only [inRange, decide_eq_false_iff_not]
  omega

theorem any_true_of_all {t : String} {p : Char → Bool} (h1 : t.data ≠ [])
    (h2 : ∀ c ∈ t.data, p c = true) : t.data.any p = true := by
  obtain ⟨c, hc⟩ := List.exists_mem_of_ne_nil t.data h1
  exact List.any_eq_true.mpr ⟨c, hc, h2 c hc⟩

theorem any_false_of_all {t : String} {p q : Char → Bool}
    (h2 : ∀ c ∈ t.data, p c = true) (hpq : ∀ c, p c = true → q c = false) :
    t.data.any q = false := by
  rw [List.any_eq_false]
  intro c hc
  simp [hpq c (h2 c hc)]

/-- C8: `detectLanguage` tests the script ranges in the fixed priority
order Tamil, then Telugu, then Devanagari, then default; a non-empty
string of Tamil-range code points yields `('ta', 1.0)`, a non-empty
string of Telugu-range code points yields `('te', 1.0)`, a non-empty
string of Devanagari code points yields `('hi', 0.8)` (never `'mr'`),
and any string containing none of the three ranges — in particular the
empty string — yields `('en', 0.5)`. -/
theorem C8_detector_priority_and_boundaries :
    (∀ t : String, hasTamil t = true → detectLanguage t = ⟨"ta", 1⟩) ∧
    (∀ t : String, hasTamil t = false → hasTelugu t = true →
      detectLanguage t = ⟨"te", 1⟩) ∧
    (∀ t : String, hasTamil t = false → hasTelugu t = false →
      hasDevanagari t = true → detectLanguage t = ⟨"hi", 4/5⟩) ∧
    (∀ t : String, hasTamil t = false → hasTelugu t = false →
      hasDevanagari t = false → detectLanguage t = ⟨"en", 1/2⟩) ∧
    (∀ t : String, t.data ≠ [] → (∀ c ∈ t.data, inRange 0xB80 0xBFF c = true) →
      detectLanguage t = ⟨"ta", 1⟩) ∧
    (∀ t : String, t.data ≠ [] → (∀ c ∈ t.data, inRange 0xC00 0xC7F c = true) →
      detectLanguage t = ⟨"te", 1⟩) ∧
    (∀ t : String, t.data ≠ [] → (∀ c ∈ t.data, inRange 0x900 0x97F c = true) →
      detectLanguage t = ⟨"hi", 4/5⟩) ∧
    detectLanguage "" = ⟨"en", 1/2⟩ := by
  have hta : ∀ t : String, hasTamil t = true → detectLanguage t = ⟨"ta", 1⟩ := by
    intro t h; simp [detectLanguage, h]
  have hte : ∀ t : String, hasTamil t = false → hasTelugu t = true →
      detectLanguage t = ⟨"te", 1⟩ := by
    intro t h1 h2; simp [detectLanguage, h1, h2]
  have hhi : ∀ t : String, hasTamil t = false → hasTelugu t = false →
      hasDevanagari t = true → detectLanguage t = ⟨"hi", 4/5⟩ := by
    intro t h1 h2 h3; simp [detectLanguage, h1, h2, h3]
  refine ⟨hta, hte, hhi, ?_, ?_, ?_, ?_, rfl⟩
  · intro t h1 h2 h3; simp [detectLanguage, h1, h2, h3]
  · intro t h1 h2
    exact hta t (any_true_of_all h1 h2)
  · intro t h1 h2
    exact hte t (any_false_of_all h2 fun c => telugu_not_tamil)
      (any_true_of_all h1 h2)
  · intro t h1 h2
    exact hhi t (any_false_of_all h2 fun c => devanagari_not_tamil)
      (any_false_of_all h2 fun c => devanagari_not_telugu)
      (any_true_of_all h1 h2)

/-- C8 witness: the detector evaluated on one string per script. -/
theorem C8_detector_priority_and_boundaries_witness :
    detectLanguage "தமிழ்" = ⟨"ta", 1⟩ ∧
    detectLanguage "తెలుగు" = ⟨"te", 1⟩ ∧
    detectLanguage "नमस्ते" = ⟨"hi", 4/5⟩ ∧
    detectLanguage "hello" = ⟨"en", 1/2⟩ :=
  ⟨C8_detector_priority_and_boundaries.1 "தமிழ்" (by decide),
   C8_detector_priority_and_boundaries.2.1 "తెలుగు" (by decide) (by decide),
   C8_detector_priority_and_boundaries.2.2.1 "नमस्ते" (by decide) (by decide) (by decide),
   C8_detector_priority_and_boundaries.2.2.2.1 "hello" (by decide) (by decide) (by decide)⟩

/-- C7: when neither endpoint is English the engine stage performs two
sequential translations — source→English, then English→target — keeping
only the final text (two engine invocations); when either endpoint is
English a single direct invocation is made; and a language code outside
the supported set is silently mapped by `localTranslate` to the hub
(English) NLLB code, so such a request behaves exactly as if the code
were `'en'`. -/
theorem C7_hub_pivot_and_fallback :
    (∀ (eng : Engine) (text src tgt mid : String), src ≠ "en" → tgt ≠ "en" →
      eng text src "en" = .ok mid →
      enginePipeline eng text src tgt = (eng mid "en" tgt, 2)) ∧
    (∀ (eng : Engine) (text src tgt : String), src = "en" ∨ tgt = "en" →
      enginePipeline eng text src tgt = (eng text src tgt, 1)) ∧
    (∀ lang : String, lang ∉ (["en", "hi", "mr", "ta", "te"] : List String) →
      nllbCode lang = "eng_Latn" ∧
      (∀ (tr : Translator) (text tgt : String),
        localTranslate tr text lang tgt = localTranslate tr text "en" tgt) ∧
      (∀ (tr : Translator) (text src : String),
        localTranslate tr text src lang = localTranslate tr text src "en")) := by
  refine ⟨?_, ?_, ?_⟩
  · intro eng text src tgt mid h1 h2 hmid
    simp [enginePipeline, h1, h2, hmid]
  · intro eng text src tgt h
    rcases h with h | h <;> simp [enginePipeline, h]
  · intro lang h
    simp only [List.mem_cons, List.not_mem_nil, or_false, not_or] at h
    obtain ⟨h1, h2, h3, h4, h5⟩ := h
    have e1 : ("en" == lang) = false := beq_eq_false_iff_ne.mpr (Ne.symm h1)
    have e2 : ("hi" == lang) = false := beq_eq_false_iff_ne.mpr (Ne.symm h2)
    have e3 : ("mr" == lang) = false := beq_eq_false_iff_ne.mpr (Ne.symm h3)
    have e4 : ("ta" == lang) = false := beq_eq_false_iff_ne.mpr (Ne.symm h4)
    have e5 : ("te" == lang) = false := beq_eq_false_iff_ne.mpr (Ne.symm h5)
    have hcode : nllbCode lang = "eng_Latn" := by
      simp [nllbCode, nllbLangMap, List.find?, e1, e2, e3, e4, e5]
    have hen : nllbCode "en" = "eng_Latn" := rfl
    exact ⟨hcode, fun tr text tgt => by rw [localTranslate, localTranslate, hcode, hen],
      fun tr text src => by rw [localTranslate, localTranslate, hcode, hen]⟩

/-- C7 witness: the pivot evaluated on a hi→ta request and the fallback
on an unsupported code. -/
theorem C7_hub_pivot_and_fallback_witness :
    enginePipeline engEcho "वाक्य" "hi" "ta" = (engEcho "वाक्य" "en" "ta", 2) ∧
    enginePipeline engEcho "वाक्य" "hi" "en" = (engEcho "वाक्य" "hi" "en", 1) ∧
    nllbCode "fr" = "eng_Latn" :=
  ⟨C7_hub_pivot_and_fallback.1 engEcho "वाक्य" "hi" "ta" "वाक्य"
      (by decide) (by decide) rfl,
   C7_hub_pivot_and_fallback.2.1 engEcho "वाक्य" "hi" "en" (Or.inr rfl),
   (C7_hub_pivot_and_fallback.2.2 "fr" (by decide)).1⟩

/-- The safety invariant of the model-load state machine: the load
counter mirrors whether the in-flight promise is cached, the translator
is only cached after the promise is, and any caller past its synchronous
prefix witnesses the cached promise. -/
def SysInv (s : EngineSys) : Prop :=
  s.loadCount = (if s.promiseSet then 1 else 0) ∧
  (s.translatorSet = true → s.promiseSet = true) ∧
  (∀ c ∈ s.callers, c ≠ CallerPhase.start → s.promiseSet = true)

theorem sysInv_init (n : Nat) : SysInv (initSys n) := by
  refine ⟨rfl, by simp [initSys], ?_⟩
  intro c hc hne
  exact absurd (List.eq_of_mem_replicate hc) hne

theorem sysInv_step {s : EngineSys} (h : SysInv s) (i : Nat) :
    SysInv (stepCaller s i) := by
  obtain ⟨h1, h2, h3⟩ := h
  unfold stepCaller
  cases hget : s.callers.get? i with
  | none => exact ⟨h1, h2, h3⟩
  | some c =>
    cases c with
    | done => exact ⟨h1, h2, h3⟩
    | start =>
      cases htr : s.translatorSet with
      | true =>
        exact ⟨h1, fun _ => h2 htr, fun c hc hne => h2 htr⟩
      | false =>
        cases hpr : s.promiseSet with
        | true =>
          exact ⟨by simpa [hpr] using h1, fun _ => rfl, fun c hc hne => rfl⟩
        | false =>
          have h0 : s.loadCount = 0 := by simpa [hpr] using h1
          refine ⟨?_, fun _ => rfl, fun c hc hne => rfl⟩
          show s.loadCount + 1 = if (true : Bool) = true then 1 else 0
          rw [if_pos rfl, h0]
    | awaiting =>
      have hps : s.promiseSet = true :=
        h3 _ (List.get?_mem hget) (by simp)
      exact ⟨h1, fun _ => hps, fun c hc hne => hps⟩

theorem sysInv_run {s : EngineSys} (h : SysInv s) (sched : List Nat) :
    SysInv (runSched s sched) := by
  induction sched generalizing s with
  | nil => exact h
  | cons i rest ih => exact ih (sysInv_step h i)

theorem stepCaller_length (s : EngineSys) (i : Nat) :
    (stepCaller s i).callers.length = s.callers.length := by
  unfold stepCaller
  cases hget : s.callers.get? i with
  | none => rfl
  | some c =>
    cases c with
    | done => rfl
    | start =>
      cases htr : s.translatorSet with
      | true => simp [List.length_set]
      | false =>
        cases hpr : s.promiseSet with
        | true => simp [List.length_set]
        | false => simp [List.length_set]
    | awaiting => simp [List.length_set]

theorem runSched_length (s : EngineSys) (sched : List Nat) :
    (runSched s sched).callers.length = s.callers.length := by
  induction sched generalizing s with
  | nil => rfl
  | cons i rest ih =>
    calc (runSched (stepCaller s i) rest).callers.length
        = (stepCaller s i).callers.length := ih _
      _ = s.callers.length := stepCaller_length s i

/-- C9: for any number `n` of concurrent first-call translations against
an unloaded engine, and any interleaving of their execution at the
granularity the event loop allows (the synchronous check-and-set prefix
of `loadModel` is atomic, the single `await` is the only yield point),
the model load is triggered exactly once: the load count never exceeds 1
in any reachable state, and once every caller has returned it equals 1 —
all callers shared the single in-flight load promise. -/
theorem C9_single_model_load :
    (∀ (n : Nat) (sched : List Nat),
      (runSched (initSys n) sched).loadCount ≤ 1) ∧
    (∀ (n : Nat) (sched : List Nat), 0 < n →
      (∀ c ∈ (runSched (initSys n) sched).callers, c = CallerPhase.done) →
      (runSched (initSys n) sched).loadCount = 1) := by
  constructor
  · intro n sched
    have h := (sysInv_run (sysInv_init n) sched).1
    rw [h]
    split <;> omega
  · intro n sched hn hdone
    obtain ⟨h1, _, h3⟩ := sysInv_run (sysInv_init n) sched
    have hlen : (runSched (initSys n) sched).callers.length = n := by
      rw [runSched_length]
      simp [initSys]
    obtain ⟨c, hc⟩ :=
      List.exists_mem_of_length_pos (l := (runSched (initSys n) sched).callers)
        (by omega)
    have hps : (runSched (initSys n) sched).promiseSet = true :=
      h3 c hc (by simp [hdone c hc])
    rw [h1, hps]
    rfl

/-- C9 witness: two concurrent first callers under one representative
interleaving all return with exactly one load triggered. -/
theorem C9_single_model_load_witness :
    runSched (initSys 2) [0, 1, 0, 1] =
      ⟨true, true, 1, [CallerPhase.done, CallerPhase.done]⟩ ∧
    (runSched (initSys 2) [0, 1, 0, 1]).loadCount = 1 :=
  ⟨by decide,
   C9_single_model_load.2 2 [0, 1, 0, 1] (by decide) (by decide)⟩

/-- C2 counterexample: the claim says a failure of the local engine does
not abort the call when a phrase-cache hit already satisfies the
request; but `translateText` awaits the phrase lookup and the engine
together (`Promise.all`), so with the phrase cache holding
`"hello" → "namaste"` and a failing engine the call rejects instead of
returning the cached value. -/
theorem C2_counterexample :
    getPhraseFromCSV fsPhraseOnly "hello" "en" "hi" = some "namaste" ∧
    translateText fsPhraseOnly engFail "hello" "hi" "en" = (.error (), 1) :=
  ⟨rfl, rfl⟩

/-- C2 (amended): `translateText` never raises when every engine
invocation succeeds; blank-text and same-language requests, and
idiom-table hits, return normally for every engine (in particular a
failing one); but when an engine invocation fails and execution reaches
the concurrent phrase/engine stage, the failure propagates even if the
phrase cache has a hit.  The worst case with a working engine echoes the
input text back unchanged. -/
theorem C2_no_raise_when_engine_ok :
    (∀ (fs : FS) (eng : Engine) (text tgt src : String),
      (∀ a b c, ∃ r, eng a b c = .ok r) →
      ∃ res n, translateText fs eng text tgt src = (.ok res, n)) ∧
    (∀ (fs : FS) (eng : Engine) (text tgt src : String),
      jsTrim text = "" ∨ src = tgt →
      translateText fs eng text tgt src = (.ok ⟨text⟩, 0)) ∧
    (∀ (fs : FS) (eng : Engine) (text tgt src g : String),
      jsTrim text ≠ "" → src ≠ tgt →
      lookupCulturalIdiom fs text src tgt = some g →
      translateText fs eng text tgt src = (.ok ⟨g⟩, 0)) ∧
    (∀ (fs : FS) (eng : Engine) (text tgt src r : String) (n : Nat),
      jsTrim text ≠ "" → src ≠ tgt →
      lookupCulturalIdiom fs text src tgt = none →
      enginePipeline eng text src tgt = (.ok r, n) →
      getPhraseFromCSV fs text src tgt = none →
      jsLower (jsTrim r) = jsLower (jsTrim text) →
      translateText fs eng text tgt src = (.ok ⟨text⟩, n)) := by
  refine ⟨translateText_total, ?_, translateText_idiom_hit, ?_⟩
  · intro fs eng text tgt src h
    rcases h with h | h
    · exact translateText_blank fs eng text tgt src h
    · subst h
      exact translateText_same_lang fs eng text src
  · intro fs eng text tgt src r n h1 h2 hid heng hph hsame
    rw [translateText_engine_only fs eng text tgt src r n h1 h2 hid heng hph]
    simp [hsame]

/-- C2 witness: the amended behaviors at concrete inputs. -/
theorem C2_no_raise_when_engine_ok_witness :
    (∃ res n, translateText fsEmpty engNamaste "hello" "hi" "en" = (.ok res, n)) ∧
    translateText fsEmpty engFail "hello" "en" "en" = (.ok ⟨"hello"⟩, 0) ∧
    translateText fsIdiomOnly engFail "good morning" "hi" "en" =
      (.ok ⟨"सुप्रभात"⟩, 0) ∧
    translateText fsEmpty engEcho "hello" "hi" "en" = (.ok ⟨"hello"⟩, 1) :=
  ⟨C2_no_raise_when_engine_ok.1 fsEmpty engNamaste "hello" "hi" "en"
      (fun a b c => ⟨if c == "hi" then "namaste" else a, rfl⟩),
   C2_no_raise_when_engine_ok.2.1 fsEmpty engFail "hello" "en" "en" (Or.inr rfl),
   C2_no_raise_when_engine_ok.2.2.1 fsIdiomOnly engFail "good morning" "hi" "en"
      "सुप्रभात" (by decide) (by decide) rfl,
   C2_no_raise_when_engine_ok.2.2.2 fsEmpty engEcho "hello" "hi" "en" "hello" 1
      (by decide) (by decide) rfl rfl rfl rfl⟩

/-- C5: past the idiom stage, a phrase-cache hit wins over any engine
result; with no phrase hit the engine result is returned exactly when it
is non-empty and differs case-insensitively (after trimming) from the
input text, and otherwise the original text is returned unchanged.  (The
engine result reaching this comparison is never the empty string in the
running system: `localTranslate` substitutes the input text for an empty
model output, hence the `r ≠ ""` hypothesis.) -/
theorem C5_result_priority :
    ∀ (fs : FS) (eng : Engine) (text tgt src r : String) (n : Nat),
      jsTrim text ≠ "" → src ≠ tgt →
      lookupCulturalIdiom fs text src tgt = none →
      enginePipeline eng text src tgt = (.ok r, n) → r ≠ "" →
      (∀ p, getPhraseFromCSV fs text src tgt = some p →
        translateText fs eng text tgt src = (.ok ⟨p⟩, n)) ∧
      (getPhraseFromCSV fs text src tgt = none →
        translateText fs eng text tgt src =
          (.ok ⟨if jsLower (jsTrim r) != jsLower (jsTrim text) then r else text⟩,
           n)) := by
  intro fs eng text tgt src r n h1 h2 hid heng hr
  refine ⟨fun p hp =>
    translateText_phrase_hit fs eng text tgt src r p n h1 h2 hid heng hp,
    fun hph => ?_⟩
  rw [translateText_engine_only fs eng text tgt src r n h1 h2 hid heng hph,
    bne_iff_ne.mpr hr]
  rw [Bool.true_and]
  split <;> rfl

/-- C5 witness: with both a phrase-cache record and a differing engine
result available, the phrase-cache value is returned. -/
theorem C5_result_priority_witness :
    translateText fsPhraseOnly engOther "hello" "hi" "en" =
      (.ok ⟨"namaste"⟩, 1) :=
  (C5_result_priority fsPhraseOnly engOther "hello" "hi" "en" "engine-output" 1
      (by decide) (by decide) rfl rfl (by decide)).1 "namaste" rfl

/-- C1 counterexample: with the idiom table holding
`"good morning" → "सुप्रभात"` and no phrase-cache file, the request
returns the idiom target, yet the route's cache-update step appends the
idiom result to the `en→hi` phrase-cache file (creating `en-hi.csv`), so
processing the request does not leave every phrase-cache file
unchanged. -/
theorem C1_counterexample :
    (routeCore fsIdiomOnly engEcho "good morning" "hi" "en").2.1.translated =
      "सुप्रभात" ∧
    fsIdiomOnly.files "en-hi.csv" = none ∧
    (routeCore fsIdiomOnly engEcho "good morning" "hi" "en").1.files
        "en-hi.csv" =
      some "\"good morning\",\"सुप्रभात\"\n" :=
  ⟨rfl, rfl, rfl⟩

/-- C1 (amended): an exact (case-insensitive, trimmed) idiom-table entry
for the directed pair is returned as `translatedText` whatever the
phrase cache or the engine would produce, with no engine invocation; but
the route's cache-update step then treats the idiom result like any
other translation: only files other than the pair's phrase-cache file
are guaranteed unchanged, and when the idiom target differs
case-insensitively from the input and the pair's phrase-cache file does
not already contain the source phrase (and appending succeeds), the
record is appended to that phrase-cache file — the file being created
with that single record when it does not exist — a cache-write side
effect the original claim denies. -/
theorem C1_idiom_precedence_and_cache_write :
    ∀ (fs : FS) (eng : Engine) (text tgt src g : String),
      jsTrim text ≠ "" → src ≠ tgt →
      lookupCulturalIdiom fs text src tgt = some g →
      translateText fs eng text tgt src = (.ok ⟨g⟩, 0) ∧
      (∀ f, f ≠ src ++ "-" ++ tgt ++ ".csv" →
        (routeCore fs eng text tgt src).1.files f = fs.files f) ∧
      (g ≠ "" → jsLower (jsTrim g) ≠ jsLower (jsTrim text) →
        fs.files (src ++ "-" ++ tgt ++ ".csv") = none →
        fs.appendErr (src ++ "-" ++ tgt ++ ".csv") = false →
        routeCore fs eng text tgt src =
          (fs.setFile (src ++ "-" ++ tgt ++ ".csv")
             ("\"" ++ jsTrim text ++ "\",\"" ++ jsTrim g ++ "\"\n"),
           ⟨200, text, g, src⟩, 0)) ∧
      (∀ csv, g ≠ "" → jsLower (jsTrim g) ≠ jsLower (jsTrim text) →
        fs.files (src ++ "-" ++ tgt ++ ".csv") = some csv →
        fs.readErr (src ++ "-" ++ tgt ++ ".csv") = false →
        routeFoundScan (splitLines csv) (jsLower (jsTrim text)) = false →
        fs.appendErr (src ++ "-" ++ tgt ++ ".csv") = false →
        routeCore fs eng text tgt src =
          (fs.setFile (src ++ "-" ++ tgt ++ ".csv")
             (csv ++ ("\"" ++ jsTrim text ++ "\",\"" ++ jsTrim g ++ "\"\n")),
           ⟨200, text, g, src⟩, 0)) := by
  intro fs eng text tgt src g h1 h2 hid
  have htr := translateText_idiom_hit fs eng text tgt src g h1 h2 hid
  refine ⟨htr, fun f hf => routeCore_files_ne fs eng text tgt src f hf, ?_, ?_⟩
  · intro hg hdiff hnofile happ
    rw [routeCore_of_ok fs eng text tgt src g 0 htr,
      cacheUpdate_append_absent fs text g src tgt hg hdiff hnofile happ]
  · intro csv hg hdiff hfileB hread hscan happ
    rw [routeCore_of_ok fs eng text tgt src g 0 htr,
      cacheUpdate_append_exists fs text g src tgt csv hg hdiff hfileB hread
        hscan happ]

/-- C1 witness: the amended behavior on the seeded idiom
`"good morning" → "सुप्रभात"`, once against a missing `en-hi.csv` (the
file is created with the idiom record) and once against an existing
`en-hi.csv` holding an unrelated record (the idiom record is appended
after it). -/
theorem C1_idiom_precedence_and_cache_write_witness :
    routeCore fsIdiomOnly engEcho "good morning" "hi" "en" =
      (fsIdiomOnly.setFile "en-hi.csv" "\"good morning\",\"सुप्रभात\"\n",
       ⟨200, "good morning", "सुप्रभात", "en"⟩, 0) ∧
    routeCore fsIdiomAndPhrase engEcho "good morning" "hi" "en" =
      (fsIdiomAndPhrase.setFile "en-hi.csv"
         ("\"bye\",\"alvida\"\n" ++ "\"good morning\",\"सुप्रभात\"\n"),
       ⟨200, "good morning", "सुप्रभात", "en"⟩, 0) :=
  ⟨(C1_idiom_precedence_and_cache_write fsIdiomOnly engEcho "good morning" "hi"
        "en" "सुप्रभात" (by decide) (by decide) rfl).2.2.1
      (by decide) (by decide) rfl rfl,
   (C1_idiom_precedence_and_cache_write fsIdiomAndPhrase engEcho "good morning"
        "hi" "en" "सुप्रभात" (by decide) (by decide) rfl).2.2.2
      "\"bye\",\"alvida\"\n" (by decide) (by decide) rfl rfl (by decide) rfl⟩

/-- C4 counterexample: with both the append and the fallback write to
`en-hi.csv` failing, the computed translation is `namaste`, but the
route answers 500 with the original text `hello` — the cache-write
failure is not swallowed and the already-computed result is not
returned. -/
theorem C4_counterexample :
    (translateText fsBothFail engNamaste "hello" "hi" "en").1 =
      .ok ⟨"namaste"⟩ ∧
    routeCore fsBothFail engNamaste "hello" "hi" "en" =
      (fsBothFail, ⟨500, "hello", "hello", "en"⟩, 1) :=
  ⟨rfl, rfl⟩

/-- C4 (amended): a failure of the cache append is swallowed when the
catch's fallback `writeFileSync` succeeds — the computed translation is
still returned (status 200) and the pair's phrase-cache file is
overwritten with (or created as) the single record, an existing file
being truncated to that record; but when the fallback write also fails
the exception escapes to the route's outer catch, which answers 500
carrying the original text instead of the already-computed translation.
Both file states that reach the append — the pair file absent, and the
pair file present without the source phrase — are covered. -/
theorem C4_cache_write_failure_semantics :
    ∀ (fs : FS) (eng : Engine) (text tgt src res : String) (n : Nat),
      translateText fs eng text tgt src = (.ok ⟨res⟩, n) →
      res ≠ "" → jsLower (jsTrim res) ≠ jsLower (jsTrim text) →
      fs.appendErr (src ++ "-" ++ tgt ++ ".csv") = true →
      (fs.files (src ++ "-" ++ tgt ++ ".csv") = none →
        fs.writeErr (src ++ "-" ++ tgt ++ ".csv") = false →
        routeCore fs eng text tgt src =
          (fs.setFile (src ++ "-" ++ tgt ++ ".csv")
             ("\"" ++ jsTrim text ++ "\",\"" ++ jsTrim res ++ "\"\n"),
           ⟨200, text, res, src⟩, n)) ∧
      (fs.files (src ++ "-" ++ tgt ++ ".csv") = none →
        fs.writeErr (src ++ "-" ++ tgt ++ ".csv") = true →
        routeCore fs eng text tgt src = (fs, ⟨500, text, text, "en"⟩, n)) ∧
      (∀ csv, fs.files (src ++ "-" ++ tgt ++ ".csv") = some csv →
        fs.readErr (src ++ "-" ++ tgt ++ ".csv") = false →
        routeFoundScan (splitLines csv) (jsLower (jsTrim text)) = false →
        fs.writeErr (src ++ "-" ++ tgt ++ ".csv") = false →
        routeCore fs eng text tgt src =
          (fs.setFile (src ++ "-" ++ tgt ++ ".csv")
             ("\"" ++ jsTrim text ++ "\",\"" ++ jsTrim res ++ "\"\n"),
           ⟨200, text, res, src⟩, n)) ∧
      (∀ csv, fs.files (src ++ "-" ++ tgt ++ ".csv") = some csv →
        fs.readErr (src ++ "-" ++ tgt ++ ".csv") = false →
        routeFoundScan (splitLines csv) (jsLower (jsTrim text)) = false →
        fs.writeErr (src ++ "-" ++ tgt ++ ".csv") = true →
        routeCore fs eng text tgt src = (fs, ⟨500, text, text, "en"⟩, n)) := by
  intro fs eng text tgt src res n htr hres hdiff happ
  refine ⟨?_, ?_, ?_, ?_⟩
  · intro hnofile hw
    rw [routeCore_of_ok fs eng text tgt src res n htr,
      cacheUpdate_append_fail_write_ok fs text res src tgt hres hdiff hnofile
        happ hw]
  · intro hnofile hw
    rw [routeCore_of_ok fs eng text tgt src res n htr,
      cacheUpdate_append_fail_write_fail fs text res src tgt hres hdiff hnofile
        happ hw]
  · intro csv hfile hread hscan hw
    rw [routeCore_of_ok fs eng text tgt src res n htr,
      cacheUpdate_exists_append_fail_write_ok fs text res src tgt csv hres
        hdiff hfile hread hscan happ hw]
  · intro csv hfile hread hscan hw
    rw [routeCore_of_ok fs eng text tgt src res n htr,
      cacheUpdate_exists_append_fail_write_fail fs text res src tgt csv hres
        hdiff hfile hread hscan happ hw]

/-- C4 witness: an append failure with a succeeding fallback write is
swallowed and the translation still returned — once with the pair file
absent (created with the single record) and once with the pair file
present holding an unrelated record (truncated by the fallback write to
the single record). -/
theorem C4_cache_write_failure_semantics_witness :
    routeCore fsAppendFail engNamaste "hello" "hi" "en" =
      (fsAppendFail.setFile "en-hi.csv" "\"hello\",\"namaste\"\n",
       ⟨200, "hello", "namaste", "en"⟩, 1) ∧
    routeCore fsPhraseAppendFail engNamaste "hello" "hi" "en" =
      (fsPhraseAppendFail.setFile "en-hi.csv" "\"hello\",\"namaste\"\n",
       ⟨200, "hello", "namaste", "en"⟩, 1) :=
  ⟨(C4_cache_write_failure_semantics fsAppendFail engNamaste "hello" "hi" "en"
        "namaste" 1 rfl (by decide) (by decide) rfl).1 rfl rfl,
   (C4_cache_write_failure_semantics fsPhraseAppendFail engNamaste "hello" "hi"
        "en" "namaste" 1 rfl (by decide) (by decide) rfl).2.2.1
      "\"bye\",\"alvida\"\n" rfl rfl (by decide) rfl⟩

/-- C3 counterexample: starting from an empty data directory, the first
`("hello", en→hi)` request caches the engine's `namaste`; the repeated
request is answered from the phrase cache, but the engine is invoked
again (invocation count 1, where the claim requires the engine not to be
invoked on the repeat). -/
theorem C3_counterexample :
    (routeCore fsEmpty engNamaste "hello" "hi" "en").1.files "en-hi.csv" =
      some "\"hello\",\"namaste\"\n" ∧
    (routeCore (routeCore fsEmpty engNamaste "hello" "hi" "en").1 engNamaste
        "hello" "hi" "en").2.1.translated = "namaste" ∧
    (routeCore (routeCore fsEmpty engNamaste "hello" "hi" "en").1 engNamaste
        "hello" "hi" "en").2.2 = 1 :=
  ⟨rfl, rfl, rfl⟩

/-- C3 (amended): translating a novel phrase — present in neither the
idiom table nor the phrase cache — whose engine result differs
case-insensitively (trimmed) from the input appends exactly one record
`"<source phrase>","<target phrase>"` to the phrase-cache file of the
directed pair, creating the file with that single record when it does
not exist, and touching no other file; the repeated request is then
satisfied from the phrase cache — the cached target is returned whatever
the engine produces on the repeat, and the file state is unchanged — but
the engine is still invoked on the repeat (at least one invocation), its
result being discarded.  The CSV-hygiene hypotheses (`parseLine`,
`splitLines`) restrict the statement to phrases free of the format's
unescapable metacharacters (commas, newlines), a documented limitation
of the flat-file format. -/
theorem C3_cache_population_engine_reinvoked :
    ∀ (fs : FS) (eng : Engine) (text tgt src r : String) (n : Nat),
      jsTrim text ≠ "" → src ≠ tgt →
      lookupCulturalIdiom fs text src tgt = none →
      getPhraseFromCSV fs text src tgt = none →
      enginePipeline eng text src tgt = (.ok r, n) →
      r ≠ "" → jsLower (jsTrim r) ≠ jsLower (jsTrim text) →
      fs.readErr (src ++ "-" ++ tgt ++ ".csv") = false →
      fs.appendErr (src ++ "-" ++ tgt ++ ".csv") = false →
      parseLine ("\"" ++ jsTrim text ++ "\",\"" ++ jsTrim r ++ "\"") =
        some (jsTrim text, jsTrim r) →
      splitLines ("\"" ++ jsTrim text ++ "\",\"" ++ jsTrim r ++ "\"\n") =
        ["\"" ++ jsTrim text ++ "\",\"" ++ jsTrim r ++ "\"", ""] →
      (fs.files (src ++ "-" ++ tgt ++ ".csv") = none ∨
        (∃ csv, fs.files (src ++ "-" ++ tgt ++ ".csv") = some csv ∧
          routeFoundScan (splitLines csv) (jsLower (jsTrim text)) = false ∧
          splitLines (csv ++
              ("\"" ++ jsTrim text ++ "\",\"" ++ jsTrim r ++ "\"\n")) =
            splitLines csv ++
              ["\"" ++ jsTrim text ++ "\",\"" ++ jsTrim r ++ "\"", ""])) →
      routeCore fs eng text tgt src =
        (fs.setFile (src ++ "-" ++ tgt ++ ".csv")
           (((fs.files (src ++ "-" ++ tgt ++ ".csv")).getD "") ++
             ("\"" ++ jsTrim text ++ "\",\"" ++ jsTrim r ++ "\"\n")),
         ⟨200, text, r, src⟩, n) ∧
      getPhraseFromCSV
          (fs.setFile (src ++ "-" ++ tgt ++ ".csv")
            (((fs.files (src ++ "-" ++ tgt ++ ".csv")).getD "") ++
              ("\"" ++ jsTrim text ++ "\",\"" ++ jsTrim r ++ "\"\n")))
          text src tgt = some (jsTrim r) ∧
      (∀ f, f ≠ src ++ "-" ++ tgt ++ ".csv" →
        (fs.setFile (src ++ "-" ++ tgt ++ ".csv")
          (((fs.files (src ++ "-" ++ tgt ++ ".csv")).getD "") ++
            ("\"" ++ jsTrim text ++ "\",\"" ++ jsTrim r ++ "\"\n"))).files f =
          fs.files f) ∧
      (∀ (eng2 : Engine) (r2 : String) (n2 : Nat),
        enginePipeline eng2 text src tgt = (.ok r2, n2) →
        routeCore
            (fs.setFile (src ++ "-" ++ tgt ++ ".csv")
              (((fs.files (src ++ "-" ++ tgt ++ ".csv")).getD "") ++
                ("\"" ++ jsTrim text ++ "\",\"" ++ jsTrim r ++ "\"\n")))
            eng2 text tgt src =
          (fs.setFile (src ++ "-" ++ tgt ++ ".csv")
             (((fs.files (src ++ "-" ++ tgt ++ ".csv")).getD "") ++
               ("\"" ++ jsTrim text ++ "\",\"" ++ jsTrim r ++ "\"\n")),
           ⟨200, text, jsTrim r, src⟩, n2) ∧ 1 ≤ n2) := by
  intro fs eng text tgt src r n h1 h2 hid hph heng hr hdiff hread happ hparse
    hsplit hfile
  have htrans : translateText fs eng text tgt src = (.ok ⟨r⟩, n) := by
    rw [translateText_engine_only fs eng text tgt src r n h1 h2 hid heng hph,
      bne_iff_ne.mpr hr, Bool.true_and, if_pos (bne_iff_ne.mpr hdiff)]
  obtain ⟨ha, hb, hrest⟩ := parseLine_some hparse
  obtain ⟨flds, hflds⟩ := hrest
  -- the content the pair file holds after the first request
  rcases hfile with hA | ⟨csv, hB, hscanB, hsplit2⟩
  · have hcontent :
        ((fs.files (src ++ "-" ++ tgt ++ ".csv")).getD "") ++
            ("\"" ++ jsTrim text ++ "\",\"" ++ jsTrim r ++ "\"\n") =
          "\"" ++ jsTrim text ++ "\",\"" ++ jsTrim r ++ "\"\n" := by
      rw [hA]
      rfl
    rw [hcontent]
    have hscanNew :
        scanLines
            (splitLines ("\"" ++ jsTrim text ++ "\",\"" ++ jsTrim r ++ "\"\n"))
            (jsLower (jsTrim text)) = some (jsTrim r) := by
      rw [hsplit]
      exact scanLines_cons_hit [""] hparse
    have hfoundNew :
        routeFoundScan
            (splitLines ("\"" ++ jsTrim text ++ "\",\"" ++ jsTrim r ++ "\"\n"))
            (jsLower (jsTrim text)) = true := by
      rw [hsplit]
      exact routeFoundScan_cons_hit hflds ha [""]
    have hphrase2 :
        getPhraseFromCSV
            (fs.setFile (src ++ "-" ++ tgt ++ ".csv")
              ("\"" ++ jsTrim text ++ "\",\"" ++ jsTrim r ++ "\"\n"))
            text src tgt = some (jsTrim r) := by
      rw [getPhraseFromCSV_read
        (fs.setFile (src ++ "-" ++ tgt ++ ".csv")
          ("\"" ++ jsTrim text ++ "\",\"" ++ jsTrim r ++ "\"\n"))
        text src tgt
        ("\"" ++ jsTrim text ++ "\",\"" ++ jsTrim r ++ "\"\n") hread
        (setFile_files_self fs (src ++ "-" ++ tgt ++ ".csv")
          ("\"" ++ jsTrim text ++ "\",\"" ++ jsTrim r ++ "\"\n"))]
      exact hscanNew
    refine ⟨?_, hphrase2, fun f hf => setFile_files_ne fs _ _ f hf, ?_⟩
    · rw [routeCore_of_ok fs eng text tgt src r n htrans,
        cacheUpdate_append_absent fs text r src tgt hr hdiff hA happ]
    · intro eng2 r2 n2 heng2
      have hid2 :
          lookupCulturalIdiom
              (fs.setFile (src ++ "-" ++ tgt ++ ".csv")
                ("\"" ++ jsTrim text ++ "\",\"" ++ jsTrim r ++ "\"\n"))
              text src tgt = none := by
        rw [lookupCulturalIdiom_setFile_pair]
        exact hid
      have htrans2 :
          translateText
              (fs.setFile (src ++ "-" ++ tgt ++ ".csv")
                ("\"" ++ jsTrim text ++ "\",\"" ++ jsTrim r ++ "\"\n"))
              eng2 text tgt src = (.ok ⟨jsTrim r⟩, n2) :=
        translateText_phrase_hit _ eng2 text tgt src r2 (jsTrim r) n2 h1 h2
          hid2 heng2 hphrase2
      have hupd :
          cacheUpdate
              (fs.setFile (src ++ "-" ++ tgt ++ ".csv")
                ("\"" ++ jsTrim text ++ "\",\"" ++ jsTrim r ++ "\"\n"))
              text (jsTrim r) src tgt =
            .ok (fs.setFile (src ++ "-" ++ tgt ++ ".csv")
              ("\"" ++ jsTrim text ++ "\",\"" ++ jsTrim r ++ "\"\n")) := by
        cases hcond : (jsTrim r != "" &&
            jsLower (jsTrim (jsTrim r)) != jsLower (jsTrim text)) with
        | false => exact cacheUpdate_noop _ text (jsTrim r) src tgt hcond
        | true =>
          exact cacheUpdate_found _ text (jsTrim r) src tgt _
            (setFile_files_self fs _ _) hread hfoundNew
      constructor
      · rw [routeCore_of_ok _ eng2 text tgt src (jsTrim r) n2 htrans2, hupd]
      · have hmin := enginePipeline_count_pos eng2 text src tgt
        rw [heng2] at hmin
        exact hmin
  · have hcontent :
        ((fs.files (src ++ "-" ++ tgt ++ ".csv")).getD "") ++
            ("\"" ++ jsTrim text ++ "\",\"" ++ jsTrim r ++ "\"\n") =
          csv ++ ("\"" ++ jsTrim text ++ "\",\"" ++ jsTrim r ++ "\"\n") := by
      rw [hB]
      rfl
    rw [hcontent]
    have hscanOld : scanLines (splitLines csv) (jsLower (jsTrim text)) = none := by
      rw [getPhraseFromCSV_read fs text src tgt csv hread hB] at hph
      exact hph
    have hscanNew :
        scanLines
            (splitLines (csv ++
              ("\"" ++ jsTrim text ++ "\",\"" ++ jsTrim r ++ "\"\n")))
            (jsLower (jsTrim text)) = some (jsTrim r) := by
      rw [hsplit2, scanLines_append_of_none _ hscanOld]
      exact scanLines_cons_hit [""] hparse
    have hfoundNew :
        routeFoundScan
            (splitLines (csv ++
              ("\"" ++ jsTrim text ++ "\",\"" ++ jsTrim r ++ "\"\n")))
            (jsLower (jsTrim text)) = true := by
      rw [hsplit2]
      exact routeFoundScan_append_right (routeFoundScan_cons_hit hflds ha [""])
    have hphrase2 :
        getPhraseFromCSV
            (fs.setFile (src ++ "-" ++ tgt ++ ".csv")
              (csv ++ ("\"" ++ jsTrim text ++ "\",\"" ++ jsTrim r ++ "\"\n")))
            text src tgt = some (jsTrim r) := by
      rw [getPhraseFromCSV_read
        (fs.setFile (src ++ "-" ++ tgt ++ ".csv")
          (csv ++ ("\"" ++ jsTrim text ++ "\",\"" ++ jsTrim r ++ "\"\n")))
        text src tgt
        (csv ++ ("\"" ++ jsTrim text ++ "\",\"" ++ jsTrim r ++ "\"\n")) hread
        (setFile_files_self fs (src ++ "-" ++ tgt ++ ".csv")
          (csv ++ ("\"" ++ jsTrim text ++ "\",\"" ++ jsTrim r ++ "\"\n")))]
      exact hscanNew
    refine ⟨?_, hphrase2, fun f hf => setFile_files_ne fs _ _ f hf, ?_⟩
    · rw [routeCore_of_ok fs eng text tgt src r n htrans,
        cacheUpdate_append_exists fs text r src tgt csv hr hdiff hB hread
          hscanB happ]
    · intro eng2 r2 n2 heng2
      have hid2 :
          lookupCulturalIdiom
              (fs.setFile (src ++ "-" ++ tgt ++ ".csv")
                (csv ++ ("\"" ++ jsTrim text ++ "\",\"" ++ jsTrim r ++ "\"\n")))
              text src tgt = none := by
        rw [lookupCulturalIdiom_setFile_pair]
        exact hid
      have htrans2 :
          translateText
              (fs.setFile (src ++ "-" ++ tgt ++ ".csv")
                (csv ++ ("\"" ++ jsTrim text ++ "\",\"" ++ jsTrim r ++ "\"\n")))
              eng2 text tgt src = (.ok ⟨jsTrim r⟩, n2) :=
        translateText_phrase_hit _ eng2 text tgt src r2 (jsTrim r) n2 h1 h2
          hid2 heng2 hphrase2
      have hupd :
          cacheUpdate
              (fs.setFile (src ++ "-" ++ tgt ++ ".csv")
                (csv ++ ("\"" ++ jsTrim text ++ "\",\"" ++ jsTrim r ++ "\"\n")))
              text (jsTrim r) src tgt =
            .ok (fs.setFile (src ++ "-" ++ tgt ++ ".csv")
              (csv ++ ("\"" ++ jsTrim text ++ "\",\"" ++ jsTrim r ++ "\"\n"))) := by
        cases hcond : (jsTrim r != "" &&
            jsLower (jsTrim (jsTrim r)) != jsLower (jsTrim text)) with
        | false => exact cacheUpdate_noop _ text (jsTrim r) src tgt hcond
        | true =>
          exact cacheUpdate_found _ text (jsTrim r) src tgt _
            (setFile_files_self fs _ _) hread hfoundNew
      constructor
      · rw [routeCore_of_ok _ eng2 text tgt src (jsTrim r) n2 htrans2, hupd]
      · have hmin := enginePipeline_count_pos eng2 text src tgt
        rw [heng2] at hmin
        exact hmin

/-- C3 witness: the amended behavior on the concrete novel phrase
`hello` (en→hi) with an engine answering `namaste`, repeated with a
different engine whose output is ignored. -/
theorem C3_cache_population_engine_reinvoked_witness :
    routeCore fsEmpty engNamaste "hello" "hi" "en" =
      (fsEmpty.setFile "en-hi.csv" "\"hello\",\"namaste\"\n",
       ⟨200, "hello", "namaste", "en"⟩, 1) ∧
    getPhraseFromCSV (fsEmpty.setFile "en-hi.csv" "\"hello\",\"namaste\"\n")
        "hello" "en" "hi" = some "namaste" ∧
    (routeCore (fsEmpty.setFile "en-hi.csv" "\"hello\",\"namaste\"\n")
          engOther "hello" "hi" "en" =
        (fsEmpty.setFile "en-hi.csv" "\"hello\",\"namaste\"\n",
         ⟨200, "hello", "namaste", "en"⟩, 1) ∧ 1 ≤ 1) :=
  have h := C3_cache_population_engine_reinvoked fsEmpty engNamaste "hello"
    "hi" "en" "namaste" 1 (by decide) (by decide) rfl rfl rfl (by decide)
    (by decide) rfl rfl (by decide) (by decide) (Or.inl rfl)
  ⟨h.1, h.2.1, h.2.2.2 engOther "engine-output" 1 rfl⟩

end Lchat
